import Mathlib

/-!
Verification development for the PTZ camera control-protocol client
(`src/unnamed/part_000`): HTTP authentication-scheme negotiation with a
per-host credential cache, the command-dispatch layer mapping camera
operations onto vendor CGI endpoints, and the UDP discovery channel.

External library primitives the source calls (node `crypto` hashes, the
`Buffer` base64 decoder, random cnonce generation) are not part of the
repository; they enter the model as explicit function parameters.  The
mock-camera branch (`ip === 'mock'`) is the out-of-scope simulator and is
not modelled.  Everything else is translated from the source.
-/

namespace Pitized

/-! ## JavaScript string primitives -/

/-- Template-literal rendering of a possibly-`undefined` string
    (`${x}` renders the string "undefined" for a missing property). -/
def jsStr (o : Option String) : String := o.getD "undefined"

/-- JavaScript `a || d` for a possibly-`undefined` string `a`
    (the empty string is falsy). -/
def jsOrStr (o : Option String) (d : String) : String :=
  match o with
  | some s => if s = "" then d else s
  | none => d

/-- JavaScript truthiness of a possibly-`undefined` string. -/
def jsTruthyStr (o : Option String) : Bool :=
  match o with
  | some s => s ≠ ""
  | none => false

/-- JavaScript `String.prototype.includes`: exact substring test. -/
def strIncludes (s pat : String) : Bool :=
  (List.range (s.toList.length + 1)).any
    (fun i => pat.toList.isPrefixOf (s.toList.drop i))

/-- Model of `String.prototype.startsWith`. -/
def strStartsWith (s pre : String) : Bool := pre.toList.isPrefixOf s.toList

/-- Model of `String.prototype.endsWith`. -/
def strEndsWith (s post : String) : Bool := post.toList.isSuffixOf s.toList

/-- Model of `toUpperCase()` on the ASCII range the camera protocol uses. -/
def jsToUpper (s : String) : String := String.mk (s.toList.map Char.toUpper)

/-- Model of `toLowerCase()` on the ASCII range the camera protocol uses. -/
def jsToLower (s : String) : String := String.mk (s.toList.map Char.toLower)

/-- Whitespace removed by `String.prototype.trim()` (ASCII subset). -/
def isTrimWs (c : Char) : Bool :=
  c = ' ' ∨ c = '\t' ∨ c = '\n' ∨ c = '\r' ∨ c = '\x0b' ∨ c = '\x0c'

/-- Model of `String.prototype.trim()`. -/
def jsTrim (s : String) : String :=
  String.mk (((s.toList.dropWhile isTrimWs).reverse.dropWhile isTrimWs).reverse)

/-- Helper for `split` with a one-character separator: splits at every
    occurrence, keeping empty pieces, as JavaScript does. -/
def jsSplitCharAux (sep : Char) : List Char → List Char → List String
  | [], acc => [String.mk acc.reverse]
  | c :: cs, acc =>
    if c = sep then String.mk acc.reverse :: jsSplitCharAux sep cs []
    else jsSplitCharAux sep cs (c :: acc)

/-- Model of `String.prototype.split(sep)` for a one-character separator. -/
def jsSplitChar (sep : Char) (s : String) : List String :=
  jsSplitCharAux sep s.toList []

/-! ## JavaScript number coercion (`isNaN` / `Number` / truthiness)

The source stores a config value as `isNaN(v) ? v : Number(v)` and tests
truthiness of parsed fields.  We model ECMAScript `ToNumber` on strings just
far enough to decide (a) whether the string is numeric (not NaN) and
(b) whether it denotes zero; the numeric payload itself is kept as the
original string, which no claim observes. -/

def isHexDigitChar (c : Char) : Bool :=
  (('0' ≤ c ∧ c ≤ '9') ∨ ('a' ≤ c ∧ c ≤ 'f') ∨ ('A' ≤ c ∧ c ≤ 'F'))

def isDigitChar (c : Char) : Bool := '0' ≤ c ∧ c ≤ '9'

/-- After `0x`/`0o`/`0b`: all digits valid for the radix; zero iff all `'0'`.
    Returns `some isZero` when numeric, `none` when NaN. -/
def radixKind (valid : Char → Bool) (cs : List Char) : Option Bool :=
  if cs ≠ [] ∧ cs.all valid then some (cs.all (· = '0')) else none

/-- Decimal literal after the optional sign:
    `digits [. digits] [exp]` or `. digits [exp]` or `Infinity`. -/
def decimalKind (cs : List Char) : Option Bool :=
  if cs = "Infinity".toList then some false else
  let intPart := cs.takeWhile isDigitChar
  let rest := cs.dropWhile isDigitChar
  let frac? : Option (List Char × List Char) :=
    match rest with
    | '.' :: r =>
      let fr := r.takeWhile isDigitChar
      some (fr, r.dropWhile isDigitChar)
    | _ => some ([], rest)
  match frac? with
  | none => none
  | some (fracPart, rest2) =>
    if intPart = [] ∧ fracPart = [] then none else
    let expOk :=
      match rest2 with
      | [] => true
      | e :: r =>
        (e = 'e' ∨ e = 'E') ∧
          (let r2 := match r with
                     | '+' :: t => t
                     | '-' :: t => t
                     | t => t
           r2 ≠ [] ∧ r2.all isDigitChar)
    if expOk then some ((intPart ++ fracPart).all (· = '0')) else none

/-- ECMAScript `ToNumber` on a string: `some isZero` if numeric, `none` if
    NaN.  Whitespace trimming is approximated by ASCII trimming. -/
def jsToNumberKind (s : String) : Option Bool :=
  let cs := (jsTrim s).toList
  match cs with
  | [] => some true
  | '0' :: 'x' :: r => radixKind isHexDigitChar r
  | '0' :: 'X' :: r => radixKind isHexDigitChar r
  | '0' :: 'o' :: r => radixKind (fun c => '0' ≤ c ∧ c ≤ '7') r
  | '0' :: 'O' :: r => radixKind (fun c => '0' ≤ c ∧ c ≤ '7') r
  | '0' :: 'b' :: r => radixKind (fun c => c = '0' ∨ c = '1') r
  | '0' :: 'B' :: r => radixKind (fun c => c = '0' ∨ c = '1') r
  | '+' :: r => decimalKind r
  | '-' :: r => decimalKind r
  | _ => decimalKind cs

/-- Test for `isNaN(v)` being false. -/
def jsIsNumeric (s : String) : Bool := (jsToNumberKind s).isSome

/-- A parsed config value: `isNaN(v) ? v : Number(v)`.  The numeric case
    keeps the source text of the number. -/
inductive JsValue where
  | num (s : String)
  | str (s : String)
deriving DecidableEq, Repr

/-- JavaScript truthiness of a `JsValue` (`0` and `""` are falsy). -/
def JsValue.truthy : JsValue → Bool
  | .num s => jsToNumberKind s = some false
  | .str s => s ≠ ""

/-! ## JavaScript objects as association lists (assignment overwrites) -/

abbrev JsObj := List (String × JsValue)

def getVal (o : JsObj) (k : String) : Option JsValue :=
  (List.find? (fun p => p.1 = k) o).map (fun p => p.2)

def setVal (o : JsObj) (k : String) (v : JsValue) : JsObj :=
  if List.any o (fun p => p.1 = k) then
    List.map (fun p => if p.1 = k then (k, v) else p) o
  else o ++ [(k, v)]

/-- Object spread `{ ...a, ...b }`: keys of `b` overwrite keys of `a`. -/
def mergeObj (a b : JsObj) : JsObj := List.foldl (fun m p => setVal m p.1 p.2) a b

/-- JavaScript `a || b` on possibly-`undefined` object fields. -/
def jsOrVal (a b : Option JsValue) : Option JsValue :=
  match a with
  | some v => if v.truthy then some v else b
  | none => b

/-- Model of `a || 'literal'`: the final default of an `||` chain. -/
def jsOrValD (a : Option JsValue) (d : String) : JsValue :=
  match a with
  | some v => if v.truthy then v else .str d
  | none => .str d

/-! ## KeyValueConfigParser (`parse`, source lines 296-303) -/

/-- Split on maximal runs of CR/LF, as `raw.split(/[\r\n]+/)` does.
    Fuel-indexed; fuel `length + 1` always suffices since every step
    consumes at least one character. -/
def splitLineRuns : Nat → List Char → List Char → List (List Char)
  | 0, _, acc => [acc.reverse]
  | _ + 1, [], acc => [acc.reverse]
  | fuel + 1, c :: cs, acc =>
    if c = '\r' ∨ c = '\n' then
      match cs.dropWhile (fun d => d = '\r' ∨ d = '\n') with
      | [] => [acc.reverse, []]
      | rest => acc.reverse :: splitLineRuns fuel rest []
    else splitLineRuns fuel cs (c :: acc)

/-- One line of `parse`: split at the first `'='` (which must not be the
    first character), trim both sides, coerce the value. -/
def parseLine (o : JsObj) (line : List Char) : JsObj :=
  match List.findIdx? (fun c => c = '=') line with
  | some eq =>
    if eq > 0 then
      let k := jsTrim (String.mk (line.take eq))
      let v := jsTrim (String.mk (line.drop (eq + 1)))
      setVal o k (if jsIsNumeric v then .num v else .str v)
    else o
  | none => o

/-- Model of `parse(raw)`: the camera's `key=value` plaintext into an object. -/
def parse (raw : String) : JsObj :=
  List.foldl parseLine [] (splitLineRuns (raw.toList.length + 1) raw.toList [])

/-! ## `parseAuthParams` (source lines 59-67)

Operational model of the global-regex scan
`/(\w+)=(?:"([^"]*?)"|([^\s,]+))/g`: at each position, a maximal run of word
characters followed by `'='`, then either a quoted value (lazily up to the
next quote) or a maximal run of non-space non-comma characters; assignment
into the params object overwrites earlier keys. -/

def isWordChar (c : Char) : Bool :=
  ('a' ≤ c ∧ c ≤ 'z') ∨ ('A' ≤ c ∧ c ≤ 'Z') ∨ ('0' ≤ c ∧ c ≤ '9') ∨ c = '_'

def isBareChar (c : Char) : Bool := ¬ (c = ' ' ∨ c = '\t' ∨ c = '\n' ∨ c = '\r' ∨ c = ',')

abbrev AuthParams := List (String × String)

def getParam (ps : AuthParams) (k : String) : Option String :=
  (List.find? (fun p => p.1 = k) ps).map (fun p => p.2)

def setParam (ps : AuthParams) (k v : String) : AuthParams :=
  if List.any ps (fun p => p.1 = k) then
    List.map (fun p => if p.1 = k then (k, v) else p) ps
  else ps ++ [(k, v)]

/-- Fuel-indexed scanner; fuel `length + 1` always suffices since every
    step consumes at least one character. -/
def scanAuth : Nat → List Char → AuthParams → AuthParams
  | 0, _, acc => acc
  | _ + 1, [], acc => acc
  | fuel + 1, c :: cs, acc =>
    if isWordChar c then
      let w := (c :: cs).takeWhile isWordChar
      match (c :: cs).dropWhile isWordChar with
      | '=' :: r2 =>
        match r2 with
        | '"' :: r3 =>
          if (r3.takeWhile (fun d => d ≠ '"')).length < r3.length then
            -- a closing quote exists: lazy quoted value
            scanAuth fuel (r3.dropWhile (fun d => d ≠ '"')).tail
              (setParam acc (String.mk w) (String.mk (r3.takeWhile (fun d => d ≠ '"'))))
          else
            -- no closing quote: the bare alternative matches from the quote
            scanAuth fuel (r2.dropWhile isBareChar)
              (setParam acc (String.mk w) (String.mk (r2.takeWhile isBareChar)))
        | d :: _ =>
          if isBareChar d then
            scanAuth fuel (r2.dropWhile isBareChar)
              (setParam acc (String.mk w) (String.mk (r2.takeWhile isBareChar)))
          else scanAuth fuel r2 acc
        | [] => acc
      | _ => scanAuth fuel cs acc
    else scanAuth fuel cs acc

def parseAuthParams (header : String) : AuthParams :=
  scanAuth (header.toList.length + 1) header.toList []

/-! ## Lowercase hex rendering (`Number.prototype.toString(16)` on a
natural number) and base64 (`Buffer.prototype.toString('base64')`) -/

def hexDigitChar (n : Nat) : Char :=
  if n < 10 then Char.ofNat (48 + n) else Char.ofNat (87 + n)

/-- Fuel-indexed digit extraction; fuel `n + 1` always suffices since the
    argument strictly decreases. -/
def toHexGo : Nat → Nat → List Char
  | 0, _ => []
  | fuel + 1, n =>
    if n < 16 then [hexDigitChar n]
    else toHexGo fuel (n / 16) ++ [hexDigitChar (n % 16)]

/-- Model of `n.toString(16)` for a natural number: lowercase, no leading zeros. -/
def toHexList (n : Nat) : List Char := toHexGo (n + 1) n

/-- Model of `String.prototype.padStart(len, c)`. -/
def padStart (len : Nat) (c : Char) (s : List Char) : List Char :=
  List.replicate (len - s.length) c ++ s

def hexVal (c : Char) : Nat :=
  if '0' ≤ c ∧ c ≤ '9' then c.toNat - 48 else c.toNat - 87

def hexDecodeL (cs : List Char) : Nat :=
  List.foldl (fun a c => 16 * a + hexVal c) 0 cs

def hexDecode (s : String) : Nat := hexDecodeL s.toList

def isLowerHexDigit (c : Char) : Bool :=
  ('0' ≤ c ∧ c ≤ '9') ∨ ('a' ≤ c ∧ c ≤ 'f')

def b64CharAt (n : Nat) : Char :=
  "ABCDEFGHIJKLMNOPQRSTUVWXYZabcdefghijklmnopqrstuvwxyz0123456789+/".toList.getD n 'A'

def base64Chunks : List Nat → List Char
  | b0 :: b1 :: b2 :: rest =>
    b64CharAt (b0 / 4) :: b64CharAt ((b0 % 4) * 16 + b1 / 16) ::
      b64CharAt ((b1 % 16) * 4 + b2 / 64) :: b64CharAt (b2 % 64) :: base64Chunks rest
  | [b0, b1] =>
    [b64CharAt (b0 / 4), b64CharAt ((b0 % 4) * 16 + b1 / 16),
      b64CharAt ((b1 % 16) * 4), '=']
  | [b0] => [b64CharAt (b0 / 4), b64CharAt ((b0 % 4) * 16), '=', '=']
  | [] => []

/-- Node `Buffer.from(s).toString('base64')` over the UTF-8 bytes of `s`. -/
def base64Encode (s : String) : String :=
  String.mk (base64Chunks (s.toUTF8.toList.map (fun b => b.toNat)))

/-! ## AuthSchemeBuilders (source lines 72-104)

The node `crypto` hash functions and the random 8-byte cnonce are external
to the repository and enter as parameters `md5`, `sha256`, `cnonce`. -/

def quoteStr (s : String) : String := "\"" ++ s ++ "\""

/-- An `k=v, k=v, ...` header value after its scheme tag. -/
def renderHeaderValue (tag : String) (fields : List (String × String)) : String :=
  tag ++ " " ++ String.intercalate ", " (List.map (fun p => p.1 ++ "=" ++ p.2) fields)

structure BuiltHeader where
  headerName : String
  headerValue : String
deriving DecidableEq, Repr

/-- Model of `(challenge.algorithm || 'MD5').toUpperCase()` (line 75). -/
def digestAlgo (challenge : AuthParams) : String :=
  jsToUpper (jsOrStr (getParam challenge "algorithm") "MD5")

/-- Model of `algo.startsWith('SHA-256') ? sha256 : md5` (line 76). -/
def digestHash (md5 sha256 : String → String) (challenge : AuthParams) : String → String :=
  if strStartsWith (digestAlgo challenge) "SHA-256" then sha256 else md5

/-- HA1 as used by `buildDigestAuth` (lines 77-80), including the
    `MD5-SESS` / `SHA-256-SESS` re-hash. -/
def digestHA1 (md5 sha256 : String → String) (cnonce username password : String)
    (challenge : AuthParams) : String :=
  let hash := digestHash md5 sha256 challenge
  let algo := digestAlgo challenge
  let ha1 := hash (username ++ ":" ++ jsStr (getParam challenge "realm") ++ ":" ++ password)
  if algo = "MD5-SESS" ∨ algo = "SHA-256-SESS" then
    hash (ha1 ++ ":" ++ jsStr (getParam challenge "nonce") ++ ":" ++ cnonce)
  else ha1

/-- Model of `challenge.qop ? challenge.qop.split(',')[0].trim() : null`
    (line 82): the *derived* qop value; `none` models `null`.  Note the
    derived value can be the empty string (e.g. for `challenge.qop = ","`
    or `", auth"`), which every later use treats as falsy. -/
def digestQop (challenge : AuthParams) : Option String :=
  match getParam challenge "qop" with
  | some s => if s = "" then none else some (jsTrim ((jsSplitChar ',' s).headD ""))
  | none => none

/-- Truthiness of the derived qop, the guard of `qop ? ... : ...` (line 83)
    and `if (qop)` (line 87): `null` and the empty string are both falsy. -/
def digestQopTruthy (challenge : AuthParams) : Bool :=
  match digestQop challenge with
  | some q => q ≠ ""
  | none => false

/-- The digest `response` hash (lines 83-85): the qop form only when the
    derived qop is truthy. -/
def digestResponse (md5 sha256 : String → String)
    (cnonce method uri username password : String) (challenge : AuthParams) : String :=
  let hash := digestHash md5 sha256 challenge
  let ha1 := digestHA1 md5 sha256 cnonce username password challenge
  let ha2 := hash (method ++ ":" ++ uri)
  match digestQop challenge with
  | some q =>
    if q = "" then hash (ha1 ++ ":" ++ jsStr (getParam challenge "nonce") ++ ":" ++ ha2)
    else
      hash (ha1 ++ ":" ++ jsStr (getParam challenge "nonce") ++ ":00000001:" ++
        cnonce ++ ":" ++ q ++ ":" ++ ha2)
  | none => hash (ha1 ++ ":" ++ jsStr (getParam challenge "nonce") ++ ":" ++ ha2)

/-- The `k=v` pairs of the `Digest` header value, in emission order
    (lines 86-88): the base fields, then `qop`/`nc`/`cnonce` when the
    derived qop is truthy (`if (qop)`, line 87), then `opaque` when the
    challenge supplied one (truthy). -/
def digestFields (md5 sha256 : String → String)
    (cnonce method uri username password : String) (challenge : AuthParams) :
    List (String × String) :=
  [("username", quoteStr username),
    ("realm", quoteStr (jsStr (getParam challenge "realm"))),
    ("nonce", quoteStr (jsStr (getParam challenge "nonce"))),
    ("uri", quoteStr uri),
    ("algorithm", digestAlgo challenge),
    ("response", quoteStr (digestResponse md5 sha256 cnonce method uri username password challenge))] ++
  (match digestQop challenge with
   | some q =>
     if q = "" then []
     else [("qop", q), ("nc", "00000001"), ("cnonce", quoteStr cnonce)]
   | none => []) ++
  (if jsTruthyStr (getParam challenge "opaque") then
    [("opaque", quoteStr (jsStr (getParam challenge "opaque")))]
   else [])

/-- Model of `buildDigestAuth` (lines 72-90). -/
def buildDigestAuth (md5 sha256 : String → String)
    (cnonce method uri username password : String) (challenge : AuthParams) :
    BuiltHeader :=
  ⟨"Authorization",
    renderHeaderValue "Digest"
      (digestFields md5 sha256 cnonce method uri username password challenge)⟩

/-- The `Authn` response hash (lines 95-97): HA2 hard-codes `GET:` whatever
    the actual request method. -/
def authnResponse (sha256 : String → String) (cnonce uri username password : String)
    (challenge : AuthParams) : String :=
  let ha1 := sha256 (username ++ ":" ++ (getParam challenge "realm").getD "" ++ ":" ++ password)
  let ha2 := sha256 ("GET:" ++ uri)
  sha256 (ha1 ++ ":" ++ jsStr (getParam challenge "nonce") ++ ":" ++ cnonce ++ ":" ++ ha2)

/-- The `k=v` pairs of the `Authn` header value (line 98). -/
def authnFields (sha256 : String → String) (cnonce uri username password : String)
    (challenge : AuthParams) : List (String × String) :=
  [("username", quoteStr username),
    ("nonce", quoteStr (jsStr (getParam challenge "nonce"))),
    ("uri", quoteStr uri),
    ("response", quoteStr (authnResponse sha256 cnonce uri username password challenge)),
    ("cnonce", quoteStr cnonce)]

/-- Model of `buildAuthnAuth` (lines 92-100): emitted on the vendor `auth_tkt`
    header, not `Authorization`. -/
def buildAuthnAuth (sha256 : String → String) (cnonce uri username password : String)
    (challenge : AuthParams) : BuiltHeader :=
  ⟨"auth_tkt",
    renderHeaderValue "Authn" (authnFields sha256 cnonce uri username password challenge)⟩

/-- Model of `buildBasicAuth` (lines 102-104). -/
def buildBasicAuth (username password : String) : BuiltHeader :=
  ⟨"Authorization", "Basic " ++ base64Encode (username ++ ":" ++ password)⟩

inductive Scheme where
  | digest
  | authn
  | basic
deriving DecidableEq, Repr

structure Cred where
  username : String
  password : String
deriving DecidableEq, Repr

/-- Model of `buildRetryHeaders` (lines 106-123).  Digest retries always sign for
    method `GET` (line 110). -/
def buildRetryHeaders (md5 sha256 : String → String) (cnonce : String)
    (scheme : Scheme) (uri : String) (auth : Cred) (challenge : AuthParams)
    (cookie : Option String) : List (String × String) :=
  match scheme with
  | .digest =>
    let a := buildDigestAuth md5 sha256 cnonce "GET" uri auth.username auth.password challenge
    [("Connection", "close"), (a.headerName, a.headerValue)]
  | .authn =>
    let a := buildAuthnAuth sha256 cnonce uri auth.username auth.password challenge
    [("Connection", "close"), (a.headerName, a.headerValue), ("User-From", "www")] ++
      (match cookie with | some c => [("Cookie", c)] | none => [])
  | .basic =>
    let a := buildBasicAuth auth.username auth.password
    [("Connection", "close"), (a.headerName, a.headerValue)]

/-! ## Dispatcher result contract -/

/-- The uniform `{success: true, data?}` / `{success: false, error}`
    contract every handler returns. -/
inductive HandlerResult where
  | ok (data : Option String)
  | fail (error : String)
deriving DecidableEq, Repr

/-! ## Movement handlers (source lines 405-468, 533-567)

Each handler is modelled on the non-mock path as a function of its
arguments and of the outcome of the underlying `httpGet` (`.ok body`
when the promise resolved with the response body, `.error msg` when it
rejected); the `catch` block maps a rejection to `{success:false,
error: err.message}`. -/

/-- CGI path built by `camera:ptz` (lines 422-431). -/
def ptzPath (cmd s1 s2 : String) : String :=
  let base := "/cgi-bin/ptzctrl.cgi?ptzcmd&" ++ cmd
  if jsToLower cmd = "home" then base
  else if strStartsWith (jsToLower cmd) "pos" then base ++ "&" ++ s1
  else base ++ "&" ++ s1 ++ "&" ++ s2

/-- Model of `camera:ptz` (lines 405-445): the only movement handler that sniffs
    the response body for `401` / `Unauthorized`. -/
def cameraPtz (_cmd _s1 _s2 : String) (r : Except String String) : HandlerResult :=
  match r with
  | .error e => .fail e
  | .ok body =>
    if strIncludes body "401" ∨ strIncludes body "Unauthorized" then
      .fail "Authentication required for PTZ control"
    else .ok none

/-- Model of `camera:zoom` (lines 447-456): no body check. -/
def cameraZoom (_dir _spd : String) (r : Except String String) : HandlerResult :=
  match r with
  | .error e => .fail e
  | .ok _ => .ok none

/-- Model of `camera:focus` (lines 458-468): no body check. -/
def cameraFocus (_cmd : String) (r : Except String String) : HandlerResult :=
  match r with
  | .error e => .fail e
  | .ok _ => .ok none

/-- Model of `camera:ptzReset` (lines 533-539): no body check. -/
def cameraPtzReset (r : Except String String) : HandlerResult :=
  match r with
  | .error e => .fail e
  | .ok _ => .ok none

/-- Model of `camera:osdNavigate` (lines 560-567): no body check. -/
def cameraOsdNavigate (_cmd : String) (r : Except String String) : HandlerResult :=
  match r with
  | .error e => .fail e
  | .ok _ => .ok none

/-- The clamp in `camera:zoomTo` (line 545):
    `Math.max(0, Math.min(16384, Number(position)))`. -/
def clampZoom (position : Int) : Nat := (max 0 (min 16384 position)).toNat

/-- The hex encoding in `camera:zoomTo` (line 545):
    `clamped.toString(16).padStart(4, '0')`. -/
def zoomToPosHex (position : Int) : String :=
  String.mk (padStart 4 '0' (toHexList (clampZoom position)))

/-- CGI path built by `camera:zoomTo` (line 546). -/
def zoomToPath (position : Int) (speed : String) : String :=
  "/cgi-bin/ptzctrl.cgi?ptzcmd&zoomto&" ++ speed ++ "&" ++ zoomToPosHex position

/-- Model of `camera:zoomTo` (lines 541-549): no body check. -/
def cameraZoomTo (_position : Int) (_speed : String) (r : Except String String) :
    HandlerResult :=
  match r with
  | .error e => .fail e
  | .ok _ => .ok none

/-! ## Snapshot handler (source lines 471-508)

The two candidate endpoints (`/cgi-bin/snapshot.cgi`, then `/snapshot.jpg`
on failure) are each modelled by the outcome of their `httpGetBinary`
promise.  The retrieved buffer is modelled as the string it decodes to;
`buf.length` is its UTF-8 byte count. -/

/-- Classification of a retrieved snapshot buffer (lines 491-504). -/
def classifySnapshot (buf : String) : HandlerResult :=
  if buf.utf8ByteSize < 1000 then
    if strIncludes buf "<!DOCTYPE" ∨ strIncludes buf "<html" then
      if strIncludes buf "401" ∨ strIncludes buf "Unauthorized" then
        .fail "Authentication required for snapshots"
      else .fail "Camera returned error page instead of image"
    else .ok (some (base64Encode buf))
  else .ok (some (base64Encode buf))

/-- Model of `camera:snapshot` on the non-mock path. -/
def cameraSnapshot (firstTry secondTry : Except String String) : HandlerResult :=
  match firstTry with
  | .ok buf => classifySnapshot buf
  | .error _ =>
    match secondTry with
    | .ok buf => classifySnapshot buf
    | .error e => .fail e

/-! ## AuthCache (source line 70) and AuthenticatedTransport (lines 125-294)

The cache is the process-wide `Map` from camera IP to the last successful
`{scheme, challenge, cookie}`.  The network is an oracle assigning an
outcome to the n-th HTTP request of the operation (a response, an `'error'`
event, or a `'timeout'` event); requests issued are recorded in order.
Header rendering adds only externally supplied randomness (the cnonce), so
a request is recorded by the data its headers are built from. -/

structure CachedAuth where
  scheme : Scheme
  challenge : AuthParams
  cookie : Option String
deriving DecidableEq, Repr

abbrev Cache := List (String × CachedAuth)

def cacheGet (c : Cache) (ip : String) : Option CachedAuth :=
  (List.find? (fun p => p.1 = ip) c).map (fun p => p.2)

def cacheSet (c : Cache) (ip : String) (e : CachedAuth) : Cache :=
  if List.any c (fun p => p.1 = ip) then
    List.map (fun p => if p.1 = ip then (ip, e) else p) c
  else c ++ [(ip, e)]

def cacheDel (c : Cache) (ip : String) : Cache :=
  List.filter (fun p => ¬ p.1 = ip) c

structure HttpResponse where
  statusCode : Nat
  /-- `res.headers['www-authenticate'] || ''`. -/
  wwwAuth : String
  /-- `res.headers['set-cookie'] || []`. -/
  setCookie : List String
  body : String
deriving DecidableEq, Repr

inductive NetEvent where
  | resp (r : HttpResponse)
  | nerr (msg : String)
  | tout
deriving DecidableEq, Repr

abbrev Oracle := Nat → NetEvent

inductive ReqAuth where
  | noAuth
  | withAuth (scheme : Scheme) (challenge : AuthParams) (cookie : Option String)
deriving DecidableEq, Repr

structure ReqRecord where
  method : String
  path : String
  auth : ReqAuth
deriving DecidableEq, Repr

structure TranRun where
  result : Except String HttpResponse
  cache : Cache
  reqs : List ReqRecord
deriving Repr

/-- Model of `auth && auth.username && auth.password` (lines 135, 159). -/
def credOk : Option Cred → Bool
  | some a => a.username ≠ "" ∧ a.password ≠ ""
  | none => false

/-- Model of `c.split(';')[0]` on a captured `auth_tkt` cookie (lines 181, 189). -/
def cookieFirstPart (c : String) : String := (jsSplitChar ';' c).headD ""

/-- The cookie-value extraction of the fallback path (line 192):
    `tkt.split('=').slice(1).join('=').split(';')[0]`. -/
def cookieValuePart (c : String) : String :=
  (jsSplitChar ';' (String.intercalate "=" ((jsSplitChar '=' c).drop 1))).headD ""

/-- Scheme detection on a 401 response (lines 170-206).  `b64d` is the
    external node `Buffer` base64 decoder used by the cookie fallback.
    `none` means the unknown-scheme error. -/
def detectScheme (b64d : String → String) (r : HttpResponse) :
    Option (Scheme × AuthParams × Option String) :=
  let wwwLower := jsToLower r.wwwAuth
  if strStartsWith wwwLower "digest" then
    some (.digest, parseAuthParams r.wwwAuth, none)
  else if strStartsWith wwwLower "authn" ∨ strStartsWith wwwLower "auth_tkt" then
    some (.authn, parseAuthParams r.wwwAuth,
      (List.find? (fun c => strStartsWith c "auth_tkt=") r.setCookie).map cookieFirstPart)
  else if strStartsWith wwwLower "basic" then
    some (.basic, [], none)
  else
    match List.find? (fun c => strStartsWith c "auth_tkt=") r.setCookie with
    | some tkt =>
      some (.authn,
        [("nonce", (jsSplitChar '!' (b64d (cookieValuePart tkt))).headD "")],
        some (cookieFirstPart tkt))
    | none => none

/-- Model of `authGetFresh` (lines 156-228), consuming oracle events from index `k`:
    one unauthenticated request; on 401 with a credential, scheme detection
    and one authenticated retry; a 401 on the retry is final; a non-401
    retry response is cached. -/
def authGetFresh (b64d : String → String) (ip urlPath : String) (auth : Option Cred)
    (cache : Cache) (oracle : Oracle) (k : Nat) : TranRun :=
  match oracle k with
  | .nerr e => ⟨.error e, cache, [⟨"GET", urlPath, .noAuth⟩]⟩
  | .tout => ⟨.error "Request timed out", cache, [⟨"GET", urlPath, .noAuth⟩]⟩
  | .resp r =>
    if r.statusCode ≠ 401 ∨ ¬ credOk auth then ⟨.ok r, cache, [⟨"GET", urlPath, .noAuth⟩]⟩
    else
      match detectScheme b64d r with
      | none =>
        ⟨.error "401 Unauthorized — unknown auth scheme", cache, [⟨"GET", urlPath, .noAuth⟩]⟩
      | some (scheme, challenge, cookie) =>
        match oracle (k + 1) with
        | .nerr e =>
          ⟨.error e, cache,
            [⟨"GET", urlPath, .noAuth⟩, ⟨"GET", urlPath, .withAuth scheme challenge cookie⟩]⟩
        | .tout =>
          ⟨.error "Request timed out", cache,
            [⟨"GET", urlPath, .noAuth⟩, ⟨"GET", urlPath, .withAuth scheme challenge cookie⟩]⟩
        | .resp r2 =>
          if r2.statusCode = 401 then
            ⟨.error "401 Unauthorized - check credentials", cache,
              [⟨"GET", urlPath, .noAuth⟩, ⟨"GET", urlPath, .withAuth scheme challenge cookie⟩]⟩
          else
            ⟨.ok r2, cacheSet cache ip ⟨scheme, challenge, cookie⟩,
              [⟨"GET", urlPath, .noAuth⟩, ⟨"GET", urlPath, .withAuth scheme challenge cookie⟩]⟩

/-- Model of `authGet` (lines 130-154): the cached-auth fast path, falling back to
    `authGetFresh`; a 401 on the cached attempt deletes the entry first. -/
def authGet (b64d : String → String) (ip urlPath : String) (auth : Option Cred)
    (cache : Cache) (oracle : Oracle) : TranRun :=
  match cacheGet cache ip with
  | some cached =>
    if credOk auth then
      match oracle 0 with
      | .nerr e =>
        ⟨.error e, cache, [⟨"GET", urlPath, .withAuth cached.scheme cached.challenge cached.cookie⟩]⟩
      | .tout =>
        ⟨.error "Request timed out", cache,
          [⟨"GET", urlPath, .withAuth cached.scheme cached.challenge cached.cookie⟩]⟩
      | .resp r =>
        if r.statusCode = 401 then
          ⟨(authGetFresh b64d ip urlPath auth (cacheDel cache ip) oracle 1).result,
            (authGetFresh b64d ip urlPath auth (cacheDel cache ip) oracle 1).cache,
            ⟨"GET", urlPath, .withAuth cached.scheme cached.challenge cached.cookie⟩ ::
              (authGetFresh b64d ip urlPath auth (cacheDel cache ip) oracle 1).reqs⟩
        else
          ⟨.ok r, cache,
            [⟨"GET", urlPath, .withAuth cached.scheme cached.challenge cached.cookie⟩]⟩
    else authGetFresh b64d ip urlPath auth cache oracle 0
  | none => authGetFresh b64d ip urlPath auth cache oracle 0

/-- The headers of the single POST of `httpPost` reuse cached auth only
    when a credential was supplied (lines 276-281). -/
def postReqAuth (ip : String) (auth : Option Cred) (cache : Cache) : ReqAuth :=
  match cacheGet cache ip with
  | some cached =>
    if credOk auth then .withAuth cached.scheme cached.challenge cached.cookie
    else .noAuth
  | none => .noAuth

/-- Model of `httpPost` (lines 267-294): a single POST reusing cached auth when a
    credential was supplied; no 401 handling, no cache write. -/
def httpPost (ip urlPath : String) (auth : Option Cred) (cache : Cache)
    (oracle : Oracle) : TranRun :=
  match oracle 0 with
  | .nerr e => ⟨.error e, cache, [⟨"POST", urlPath, postReqAuth ip auth cache⟩]⟩
  | .tout => ⟨.error "Request timed out", cache, [⟨"POST", urlPath, postReqAuth ip auth cache⟩]⟩
  | .resp r => ⟨.ok r, cache, [⟨"POST", urlPath, postReqAuth ip auth cache⟩]⟩

/-! ## Connect handler (source lines 306-352)

`camera:connect` issues four reads (device-info, image, exposure, focus);
each is modelled by its `httpGet` outcome.  The device read is awaited
before the other three, so when every read fails the first pushed error is
always the device-config one. -/

/-- The `.catch(e => ...; return '')` wrapper around a group read: the body
    on success, the empty string on failure. -/
def exceptBody : Except String String → String
  | .ok s => s
  | .error _ => ""

structure DeviceInfo where
  model : JsValue
  serial : JsValue
  firmware : JsValue
deriving DecidableEq, Repr

inductive ConnectResult where
  | ok (info : DeviceInfo) (config : JsObj)
  | fail (error : String)
deriving DecidableEq, Repr

def errTag (tag : String) : Except String String → List String
  | .error e => [tag ++ e]
  | .ok _ => []

/-- Model of `camera:connect` on the non-mock path. -/
def cameraConnect (dev img expo foc : Except String String) : ConnectResult :=
  let info : JsObj := match dev with | .ok d => parse d | .error _ => []
  let hadAnyResponse := dev.isOk ∨ img.isOk ∨ expo.isOk ∨ foc.isOk
  let errors := errTag "Device config: " dev ++ errTag "Image conf: " img ++
    errTag "Exposure conf: " expo ++ errTag "Focus conf: " foc
  if hadAnyResponse then
    .ok
      ⟨jsOrValD (jsOrVal (getVal info "device_model") (getVal info "model"))
          "PTZOptics Move SE",
        jsOrValD (jsOrVal (getVal info "serial_number") (getVal info "sn")) "N/A",
        jsOrValD (jsOrVal (getVal info "firmware_version") (getVal info "fw")) "N/A"⟩
      (mergeObj (mergeObj (parse (exceptBody img)) (parse (exceptBody expo)))
        (parse (exceptBody foc)))
  else
    .fail (errors.headD
      "Camera unreachable - check IP address and network connection")

/-! ## Discovery (source lines 714-723)

`camera:discover` binds a UDP socket, broadcasts the VISCA inquiry, and
collects distinct reply source addresses.  The handler closes the socket in
the `'error'` handler and in the 3-second `setTimeout` callback — and,
unlike `camera:visca` (line 706-707), it never clears the timer.  An
execution is a list of events delivered inside the window (reply datagrams
and at most one socket error), followed by the timer firing; after an error
the socket is closed, so no further `'message'` events are delivered, but
the timer callback still runs.  `closeCalls` counts `client.close()`
invocations; `result` is the value of the first `resolve`. -/

inductive DiscEvent where
  | msg (addr : String)
  | sockError
deriving DecidableEq, Repr

structure DiscoverRun where
  found : List String
  closeCalls : Nat
  result : List String
deriving DecidableEq, Repr

/-- Events inside the window: returns (found, closes so far, first resolve). -/
def discoverLoop : List DiscEvent → List String → List String × Nat × Option (List String)
  | [], found => (found, 0, none)
  | .msg a :: rest, found =>
    discoverLoop rest (if (List.find? (fun f => f = a) found).isSome then found else found ++ [a])
  | .sockError :: _, found => (found, 1, some found)

/-- The whole `camera:discover` execution: window events, then the
    (never-cleared) timer callback `client.close(); resolve(found)`. -/
def runDiscover (events : List DiscEvent) : DiscoverRun :=
  let out := discoverLoop events []
  ⟨out.1, out.2.1 + 1, out.2.2.getD out.1⟩

/-! ## Concrete stand-ins for the external primitives and oracles

Used to instantiate the transport and digest theorems on closed inputs. -/

def md5Model (s : String) : String := "md5(" ++ s ++ ")"

def sha256Model (s : String) : String := "sha256(" ++ s ++ ")"

def b64dModel (s : String) : String := s

/-- A server that answers 401 to the cached-auth attempt, challenges the
    fresh request with Digest, and rejects the retry with 401 again. -/
def oracleStale : Oracle := fun n =>
  match n with
  | 0 => .resp ⟨401, "", [], ""⟩
  | 1 => .resp ⟨401, "Digest realm=\"x\", nonce=\"y\"", [], ""⟩
  | _ => .resp ⟨401, "", [], ""⟩

def cacheStale : Cache := [("10.0.0.9", ⟨.digest, [("realm", "old")], none⟩)]

/-- A server that always answers 200. -/
def oraclePass : Oracle := fun _ => .resp ⟨200, "", [], "ok"⟩

/-! ## Cache-map lemmas -/

theorem cacheGet_set_self (ip : String) (e : CachedAuth) (c : Cache) :
    cacheGet (cacheSet c ip e) ip = some e := by
  induction c with
  | nil => simp [cacheGet, cacheSet]
  | cons hd tl ih =>
    unfold cacheSet at ih ⊢
    by_cases h : hd.1 = ip
    · rw [if_pos (by simp [List.any_cons, h])]
      simp [cacheGet, h]
    · by_cases hA : (List.any tl fun p => decide (p.1 = ip)) = true
      · rw [if_pos (by simp [List.any_cons, hA])]
        rw [if_pos hA] at ih
        unfold cacheGet at ih ⊢
        rw [List.map_cons, if_neg h, List.find?_cons_of_neg _ (by simp [h])]
        exact ih
      · rw [if_neg (by simp [List.any_cons, h, hA])]
        rw [if_neg hA] at ih
        unfold cacheGet at ih ⊢
        rw [List.cons_append, List.find?_cons_of_neg _ (by simp [h])]
        exact ih

theorem find?_host_map_set (ip host : String) (hne : host ≠ ip) (e : CachedAuth) :
    ∀ (c : Cache),
      List.find? (fun p => decide (p.1 = host))
        (List.map (fun p => if p.1 = ip then (ip, e) else p) c) =
      List.find? (fun p => decide (p.1 = host)) c := by
  intro c
  have hne' : ¬ ip = host := fun hx => hne hx.symm
  induction c with
  | nil => rfl
  | cons hd tl ih =>
    rw [List.map_cons]
    by_cases h : hd.1 = ip
    · have hh : ¬ hd.1 = host := fun hx => hne (hx.symm.trans h)
      rw [if_pos h, List.find?_cons_of_neg _ (by simp [hne']),
        List.find?_cons_of_neg _ (by simp [hh])]
      exact ih
    · rw [if_neg h]
      by_cases hh : hd.1 = host
      · rw [List.find?_cons_of_pos _ (by simp [hh]),
          List.find?_cons_of_pos _ (by simp [hh])]
      · rw [List.find?_cons_of_neg _ (by simp [hh]),
          List.find?_cons_of_neg _ (by simp [hh])]
        exact ih

theorem cacheGet_set_other (ip host : String) (hne : host ≠ ip) (e : CachedAuth)
    (c : Cache) : cacheGet (cacheSet c ip e) host = cacheGet c host := by
  have hne' : ¬ ip = host := fun hx => hne hx.symm
  unfold cacheSet
  by_cases hA : (List.any c fun p => decide (p.1 = ip)) = true
  · rw [if_pos hA]
    unfold cacheGet
    rw [find?_host_map_set ip host hne e c]
  · rw [if_neg hA]
    unfold cacheGet
    rw [List.find?_append,
      show List.find? (fun p => decide (p.1 = host)) [(ip, e)] = none by simp [hne'],
      Option.or_none]

theorem cacheGet_del_self (ip : String) (c : Cache) :
    cacheGet (cacheDel c ip) ip = none := by
  induction c with
  | nil => simp [cacheGet, cacheDel]
  | cons hd tl ih =>
    by_cases h : hd.1 = ip <;>
      simp_all [cacheGet, cacheDel, List.filter_cons, List.find?_cons, h]

theorem cacheGet_del_other (ip host : String) (hne : host ≠ ip) (c : Cache) :
    cacheGet (cacheDel c ip) host = cacheGet c host := by
  induction c with
  | nil => simp [cacheGet, cacheDel]
  | cons hd tl ih =>
    by_cases h : hd.1 = ip
    · have hh : ¬ hd.1 = host := fun hx => hne (hx.symm.trans h)
      simp_all [cacheGet, cacheDel, List.filter_cons, List.find?_cons, h, hh]
    · by_cases hh : hd.1 = host <;>
        simp_all [cacheGet, cacheDel, List.filter_cons, List.find?_cons, h, hh]

/-! ## Transport equations: one lemma per control-flow branch -/

theorem authGetFresh_eq_nerr (b64d : String → String) (ip urlPath : String)
    (auth : Option Cred) (c : Cache) (oracle : Oracle) (k : Nat) (e : String)
    (h0 : oracle k = .nerr e) :
    authGetFresh b64d ip urlPath auth c oracle k =
      ⟨.error e, c, [⟨"GET", urlPath, .noAuth⟩]⟩ := by
  unfold authGetFresh
  rw [h0]

theorem authGetFresh_eq_tout (b64d : String → String) (ip urlPath : String)
    (auth : Option Cred) (c : Cache) (oracle : Oracle) (k : Nat)
    (h0 : oracle k = .tout) :
    authGetFresh b64d ip urlPath auth c oracle k =
      ⟨.error "Request timed out", c, [⟨"GET", urlPath, .noAuth⟩]⟩ := by
  unfold authGetFresh
  rw [h0]

theorem authGetFresh_eq_pass (b64d : String → String) (ip urlPath : String)
    (auth : Option Cred) (c : Cache) (oracle : Oracle) (k : Nat) (r : HttpResponse)
    (h0 : oracle k = .resp r) (hcond : r.statusCode ≠ 401 ∨ ¬ credOk auth = true) :
    authGetFresh b64d ip urlPath auth c oracle k =
      ⟨.ok r, c, [⟨"GET", urlPath, .noAuth⟩]⟩ := by
  unfold authGetFresh
  rw [h0]
  dsimp only
  rw [if_pos hcond]

theorem authGetFresh_eq_unknown (b64d : String → String) (ip urlPath : String)
    (auth : Option Cred) (c : Cache) (oracle : Oracle) (k : Nat) (r : HttpResponse)
    (h0 : oracle k = .resp r) (hs : r.statusCode = 401) (ha : credOk auth = true)
    (hdet : detectScheme b64d r = none) :
    authGetFresh b64d ip urlPath auth c oracle k =
      ⟨.error "401 Unauthorized — unknown auth scheme", c, [⟨"GET", urlPath, .noAuth⟩]⟩ := by
  unfold authGetFresh
  rw [h0]
  dsimp only
  rw [if_neg (by simp [hs, ha]), hdet]

theorem authGetFresh_eq_retry_nerr (b64d : String → String) (ip urlPath : String)
    (auth : Option Cred) (c : Cache) (oracle : Oracle) (k : Nat) (r : HttpResponse)
    (sch : Scheme) (ch : AuthParams) (ck : Option String) (e : String)
    (h0 : oracle k = .resp r) (hs : r.statusCode = 401) (ha : credOk auth = true)
    (hdet : detectScheme b64d r = some (sch, ch, ck)) (h1 : oracle (k + 1) = .nerr e) :
    authGetFresh b64d ip urlPath auth c oracle k =
      ⟨.error e, c,
        [⟨"GET", urlPath, .noAuth⟩, ⟨"GET", urlPath, .withAuth sch ch ck⟩]⟩ := by
  unfold authGetFresh
  rw [h0]
  dsimp only
  rw [if_neg (by simp [hs, ha]), hdet]
  dsimp only
  rw [h1]

theorem authGetFresh_eq_retry_tout (b64d : String → String) (ip urlPath : String)
    (auth : Option Cred) (c : Cache) (oracle : Oracle) (k : Nat) (r : HttpResponse)
    (sch : Scheme) (ch : AuthParams) (ck : Option String)
    (h0 : oracle k = .resp r) (hs : r.statusCode = 401) (ha : credOk auth = true)
    (hdet : detectScheme b64d r = some (sch, ch, ck)) (h1 : oracle (k + 1) = .tout) :
    authGetFresh b64d ip urlPath auth c oracle k =
      ⟨.error "Request timed out", c,
        [⟨"GET", urlPath, .noAuth⟩, ⟨"GET", urlPath, .withAuth sch ch ck⟩]⟩ := by
  unfold authGetFresh
  rw [h0]
  dsimp only
  rw [if_neg (by simp [hs, ha]), hdet]
  dsimp only
  rw [h1]

theorem authGetFresh_eq_retry_401 (b64d : String → String) (ip urlPath : String)
    (auth : Option Cred) (c : Cache) (oracle : Oracle) (k : Nat) (r r2 : HttpResponse)
    (sch : Scheme) (ch : AuthParams) (ck : Option String)
    (h0 : oracle k = .resp r) (hs : r.statusCode = 401) (ha : credOk auth = true)
    (hdet : detectScheme b64d r = some (sch, ch, ck)) (h1 : oracle (k + 1) = .resp r2)
    (h2 : r2.statusCode = 401) :
    authGetFresh b64d ip urlPath auth c oracle k =
      ⟨.error "401 Unauthorized - check credentials", c,
        [⟨"GET", urlPath, .noAuth⟩, ⟨"GET", urlPath, .withAuth sch ch ck⟩]⟩ := by
  unfold authGetFresh
  rw [h0]
  dsimp only
  rw [if_neg (by simp [hs, ha]), hdet]
  dsimp only
  rw [h1]
  dsimp only
  rw [if_pos h2]

theorem authGetFresh_eq_retry_ok (b64d : String → String) (ip urlPath : String)
    (auth : Option Cred) (c : Cache) (oracle : Oracle) (k : Nat) (r r2 : HttpResponse)
    (sch : Scheme) (ch : AuthParams) (ck : Option String)
    (h0 : oracle k = .resp r) (hs : r.statusCode = 401) (ha : credOk auth = true)
    (hdet : detectScheme b64d r = some (sch, ch, ck)) (h1 : oracle (k + 1) = .resp r2)
    (h2 : r2.statusCode ≠ 401) :
    authGetFresh b64d ip urlPath auth c oracle k =
      ⟨.ok r2, cacheSet c ip ⟨sch, ch, ck⟩,
        [⟨"GET", urlPath, .noAuth⟩, ⟨"GET", urlPath, .withAuth sch ch ck⟩]⟩ := by
  unfold authGetFresh
  rw [h0]
  dsimp only
  rw [if_neg (by simp [hs, ha]), hdet]
  dsimp only
  rw [h1]
  dsimp only
  rw [if_neg h2]

theorem authGet_eq_noCache (b64d : String → String) (ip urlPath : String)
    (auth : Option Cred) (cache : Cache) (oracle : Oracle)
    (hc : cacheGet cache ip = none) :
    authGet b64d ip urlPath auth cache oracle =
      authGetFresh b64d ip urlPath auth cache oracle 0 := by
  unfold authGet
  rw [hc]

theorem authGet_eq_noCred (b64d : String → String) (ip urlPath : String)
    (auth : Option Cred) (cache : Cache) (oracle : Oracle) (cached : CachedAuth)
    (hc : cacheGet cache ip = some cached) (ha : ¬ credOk auth = true) :
    authGet b64d ip urlPath auth cache oracle =
      authGetFresh b64d ip urlPath auth cache oracle 0 := by
  unfold authGet
  rw [hc]
  dsimp only
  rw [if_neg ha]

theorem authGet_eq_cached_nerr (b64d : String → String) (ip urlPath : String)
    (auth : Option Cred) (cache : Cache) (oracle : Oracle) (cached : CachedAuth)
    (e : String) (hc : cacheGet cache ip = some cached) (ha : credOk auth = true)
    (h0 : oracle 0 = .nerr e) :
    authGet b64d ip urlPath auth cache oracle =
      ⟨.error e, cache,
        [⟨"GET", urlPath, .withAuth cached.scheme cached.challenge cached.cookie⟩]⟩ := by
  unfold authGet
  rw [hc]
  dsimp only
  rw [if_pos ha, h0]

theorem authGet_eq_cached_tout (b64d : String → String) (ip urlPath : String)
    (auth : Option Cred) (cache : Cache) (oracle : Oracle) (cached : CachedAuth)
    (hc : cacheGet cache ip = some cached) (ha : credOk auth = true)
    (h0 : oracle 0 = .tout) :
    authGet b64d ip urlPath auth cache oracle =
      ⟨.error "Request timed out", cache,
        [⟨"GET", urlPath, .withAuth cached.scheme cached.challenge cached.cookie⟩]⟩ := by
  unfold authGet
  rw [hc]
  dsimp only
  rw [if_pos ha, h0]

theorem authGet_eq_cached_pass (b64d : String → String) (ip urlPath : String)
    (auth : Option Cred) (cache : Cache) (oracle : Oracle) (cached : CachedAuth)
    (r : HttpResponse) (hc : cacheGet cache ip = some cached) (ha : credOk auth = true)
    (h0 : oracle 0 = .resp r) (hs : r.statusCode ≠ 401) :
    authGet b64d ip urlPath auth cache oracle =
      ⟨.ok r, cache,
        [⟨"GET", urlPath, .withAuth cached.scheme cached.challenge cached.cookie⟩]⟩ := by
  unfold authGet
  rw [hc]
  dsimp only
  rw [if_pos ha, h0]
  dsimp only
  rw [if_neg hs]

theorem authGet_eq_cached_401 (b64d : String → String) (ip urlPath : String)
    (auth : Option Cred) (cache : Cache) (oracle : Oracle) (cached : CachedAuth)
    (r : HttpResponse) (hc : cacheGet cache ip = some cached) (ha : credOk auth = true)
    (h0 : oracle 0 = .resp r) (hs : r.statusCode = 401) :
    authGet b64d ip urlPath auth cache oracle =
      ⟨(authGetFresh b64d ip urlPath auth (cacheDel cache ip) oracle 1).result,
        (authGetFresh b64d ip urlPath auth (cacheDel cache ip) oracle 1).cache,
        ⟨"GET", urlPath, .withAuth cached.scheme cached.challenge cached.cookie⟩ ::
          (authGetFresh b64d ip urlPath auth (cacheDel cache ip) oracle 1).reqs⟩ := by
  unfold authGet
  rw [hc]
  dsimp only
  rw [if_pos ha, h0]
  dsimp only
  rw [if_pos hs]

/-! ## Transport case analysis -/

/-- Every `authGetFresh` run either leaves the cache alone or installs the
    entry negotiated by a 401 challenge followed by a non-401 retry. -/
theorem authGetFresh_cases (b64d : String → String) (ip urlPath : String)
    (auth : Option Cred) (c : Cache) (oracle : Oracle) (k : Nat) :
    (authGetFresh b64d ip urlPath auth c oracle k).cache = c ∨
    ∃ sch ch ck r r2,
      oracle k = .resp r ∧ r.statusCode = 401 ∧ credOk auth = true ∧
      detectScheme b64d r = some (sch, ch, ck) ∧
      oracle (k + 1) = .resp r2 ∧ r2.statusCode ≠ 401 ∧
      authGetFresh b64d ip urlPath auth c oracle k =
        ⟨.ok r2, cacheSet c ip ⟨sch, ch, ck⟩,
          [⟨"GET", urlPath, .noAuth⟩, ⟨"GET", urlPath, .withAuth sch ch ck⟩]⟩ := by
  rcases h0 : oracle k with r | e | _
  · by_cases hcond : r.statusCode ≠ 401 ∨ ¬ credOk auth = true
    · left
      rw [authGetFresh_eq_pass b64d ip urlPath auth c oracle k r h0 hcond]
    · push_neg at hcond
      rcases hdet : detectScheme b64d r with _ | ⟨⟨sch, ch, ck⟩⟩
      · left
        rw [authGetFresh_eq_unknown b64d ip urlPath auth c oracle k r h0 hcond.1 hcond.2 hdet]
      · rcases h1 : oracle (k + 1) with r2 | e | _
        · by_cases h2 : r2.statusCode = 401
          · left
            rw [authGetFresh_eq_retry_401 b64d ip urlPath auth c oracle k r r2 sch ch ck
              h0 hcond.1 hcond.2 hdet h1 h2]
          · right
            exact ⟨sch, ch, ck, r, r2, rfl, hcond.1, hcond.2, hdet, rfl, h2,
              authGetFresh_eq_retry_ok b64d ip urlPath auth c oracle k r r2 sch ch ck
                h0 hcond.1 hcond.2 hdet h1 h2⟩
        · left
          rw [authGetFresh_eq_retry_nerr b64d ip urlPath auth c oracle k r sch ch ck e
            h0 hcond.1 hcond.2 hdet h1]
        · left
          rw [authGetFresh_eq_retry_tout b64d ip urlPath auth c oracle k r sch ch ck
            h0 hcond.1 hcond.2 hdet h1]
  · left
    rw [authGetFresh_eq_nerr b64d ip urlPath auth c oracle k e h0]
  · left
    rw [authGetFresh_eq_tout b64d ip urlPath auth c oracle k h0]

theorem httpPost_cache_eq (ip urlPath : String) (auth : Option Cred) (cache : Cache)
    (oracle : Oracle) : (httpPost ip urlPath auth cache oracle).cache = cache := by
  unfold httpPost
  rcases h0 : oracle 0 with r | e | _ <;> rfl

/-- Full cache characterization of `authGet`: the cache is untouched, or a
    cached-auth 401 deleted the entry (possibly followed by a successful
    fresh negotiation re-installing one), or a direct fresh negotiation
    installed one. -/
theorem authGet_cache_cases (b64d : String → String) (ip urlPath : String)
    (auth : Option Cred) (cache : Cache) (oracle : Oracle) :
    (authGet b64d ip urlPath auth cache oracle).cache = cache ∨
    (∃ cached r0, cacheGet cache ip = some cached ∧ credOk auth = true ∧
      oracle 0 = .resp r0 ∧ r0.statusCode = 401 ∧
      ((authGet b64d ip urlPath auth cache oracle).cache = cacheDel cache ip ∨
       ∃ sch ch ck r r2, oracle 1 = .resp r ∧ r.statusCode = 401 ∧
         detectScheme b64d r = some (sch, ch, ck) ∧
         oracle 2 = .resp r2 ∧ r2.statusCode ≠ 401 ∧
         (authGet b64d ip urlPath auth cache oracle).cache =
           cacheSet (cacheDel cache ip) ip ⟨sch, ch, ck⟩ ∧
         (authGet b64d ip urlPath auth cache oracle).result = .ok r2)) ∨
    (∃ sch ch ck r r2, oracle 0 = .resp r ∧ r.statusCode = 401 ∧ credOk auth = true ∧
      detectScheme b64d r = some (sch, ch, ck) ∧
      oracle 1 = .resp r2 ∧ r2.statusCode ≠ 401 ∧
      (authGet b64d ip urlPath auth cache oracle).cache = cacheSet cache ip ⟨sch, ch, ck⟩ ∧
      (authGet b64d ip urlPath auth cache oracle).result = .ok r2) := by
  rcases hcg : cacheGet cache ip with _ | cached
  · rw [authGet_eq_noCache b64d ip urlPath auth cache oracle hcg]
    rcases authGetFresh_cases b64d ip urlPath auth cache oracle 0 with hL |
      ⟨sch, ch, ck, r, r2, ho, hs, ha, hdet, ho2, hs2, heq⟩
    · exact Or.inl hL
    · refine Or.inr (Or.inr ⟨sch, ch, ck, r, r2, ho, hs, ha, hdet, ho2, hs2, ?_, ?_⟩) <;>
        rw [heq]
  · by_cases ha : credOk auth = true
    · rcases h0 : oracle 0 with r0 | e | _
      · by_cases hs : r0.statusCode = 401
        · rw [authGet_eq_cached_401 b64d ip urlPath auth cache oracle cached r0 hcg ha h0 hs]
          refine Or.inr (Or.inl ⟨cached, r0, rfl, ha, rfl, hs, ?_⟩)
          rcases authGetFresh_cases b64d ip urlPath auth (cacheDel cache ip) oracle 1 with hL |
            ⟨sch, ch, ck, r, r2, ho, hs1, _, hdet, ho2, hs2, heq⟩
          · left
            exact hL
          · refine Or.inr ⟨sch, ch, ck, r, r2, ho, hs1, hdet, ho2, hs2, ?_, ?_⟩ <;>
              rw [heq]
        · rw [authGet_eq_cached_pass b64d ip urlPath auth cache oracle cached r0 hcg ha h0 hs]
          exact Or.inl rfl
      · rw [authGet_eq_cached_nerr b64d ip urlPath auth cache oracle cached e hcg ha h0]
        exact Or.inl rfl
      · rw [authGet_eq_cached_tout b64d ip urlPath auth cache oracle cached hcg ha h0]
        exact Or.inl rfl
    · rw [authGet_eq_noCred b64d ip urlPath auth cache oracle cached hcg ha]
      rcases authGetFresh_cases b64d ip urlPath auth cache oracle 0 with hL |
        ⟨_, _, _, _, _, _, _, haT, _, _, _, _⟩
      · exact Or.inl hL
      · exact absurd haT ha

/-! ## Claim theorems -/

/-- C1.  A GET with a credential against a host with a cached auth entry,
whose cached-auth attempt returns 401 and whose fresh unauthenticated
request is challenged again with a detectable scheme, deletes the cached
entry and performs exactly one full fresh negotiation — the request trace
is exactly [cached-auth attempt, unauthenticated request, authenticated
retry].  A 401 on that retry is final: the result is the
authentication-rejected error and the host's entry is absent from the
cache; a non-401 retry passes the response through and installs the
freshly negotiated entry. -/
theorem authGet_stale_cache_renegotiation (b64d : String → String)
    (ip urlPath : String) (auth : Option Cred) (cache : Cache) (oracle : Oracle)
    (stale : CachedAuth) (r0 r1 : HttpResponse) (sch : Scheme) (ch : AuthParams)
    (ck : Option String)
    (hc : cacheGet cache ip = some stale) (ha : credOk auth = true)
    (h0 : oracle 0 = .resp r0) (hs0 : r0.statusCode = 401)
    (h1 : oracle 1 = .resp r1) (hs1 : r1.statusCode = 401)
    (hdet : detectScheme b64d r1 = some (sch, ch, ck)) :
    ((authGet b64d ip urlPath auth cache oracle).reqs =
      [⟨"GET", urlPath, .withAuth stale.scheme stale.challenge stale.cookie⟩,
        ⟨"GET", urlPath, .noAuth⟩, ⟨"GET", urlPath, .withAuth sch ch ck⟩]) ∧
    (∀ r2, oracle 2 = .resp r2 → r2.statusCode = 401 →
      (authGet b64d ip urlPath auth cache oracle).result =
        .error "401 Unauthorized - check credentials" ∧
      cacheGet (authGet b64d ip urlPath auth cache oracle).cache ip = none) ∧
    (∀ r2, oracle 2 = .resp r2 → r2.statusCode ≠ 401 →
      (authGet b64d ip urlPath auth cache oracle).result = .ok r2 ∧
      cacheGet (authGet b64d ip urlPath auth cache oracle).cache ip =
        some ⟨sch, ch, ck⟩) := by
  rw [authGet_eq_cached_401 b64d ip urlPath auth cache oracle stale r0 hc ha h0 hs0]
  refine ⟨?_, ?_, ?_⟩
  · rcases h2 : oracle 2 with r2 | e | _
    · by_cases hst : r2.statusCode = 401
      · rw [authGetFresh_eq_retry_401 b64d ip urlPath auth (cacheDel cache ip) oracle 1
          r1 r2 sch ch ck h1 hs1 ha hdet h2 hst]
      · rw [authGetFresh_eq_retry_ok b64d ip urlPath auth (cacheDel cache ip) oracle 1
          r1 r2 sch ch ck h1 hs1 ha hdet h2 hst]
    · rw [authGetFresh_eq_retry_nerr b64d ip urlPath auth (cacheDel cache ip) oracle 1
        r1 sch ch ck e h1 hs1 ha hdet h2]
    · rw [authGetFresh_eq_retry_tout b64d ip urlPath auth (cacheDel cache ip) oracle 1
        r1 sch ch ck h1 hs1 ha hdet h2]
  · intro r2 h2 hst
    rw [authGetFresh_eq_retry_401 b64d ip urlPath auth (cacheDel cache ip) oracle 1
      r1 r2 sch ch ck h1 hs1 ha hdet h2 hst]
    exact ⟨rfl, cacheGet_del_self ip cache⟩
  · intro r2 h2 hst
    rw [authGetFresh_eq_retry_ok b64d ip urlPath auth (cacheDel cache ip) oracle 1
      r1 r2 sch ch ck h1 hs1 ha hdet h2 hst]
    exact ⟨rfl, cacheGet_set_self ip ⟨sch, ch, ck⟩ (cacheDel cache ip)⟩

/-- C10.  Cache-write policy of the transport: a POST never writes the
cache; a first response that is not 401 leaves the cache unchanged; only
the keyed host's entry is ever touched; an entry present after the run is
either the pre-existing one (no write at all) or was installed by a fresh
negotiation whose 401 challenge selected exactly that entry's scheme,
challenge and cookie and whose authenticated retry returned non-401; and an
entry that disappears does so only because the cached-auth attempt (made
with a credential) received 401. -/
theorem authCache_write_policy (b64d : String → String) (ip urlPath : String)
    (auth : Option Cred) (cache : Cache) (oracle : Oracle) :
    ((httpPost ip urlPath auth cache oracle).cache = cache) ∧
    (∀ host, host ≠ ip →
      cacheGet (authGet b64d ip urlPath auth cache oracle).cache host =
        cacheGet cache host) ∧
    (∀ r, oracle 0 = .resp r → r.statusCode ≠ 401 →
      (authGet b64d ip urlPath auth cache oracle).cache = cache) ∧
    (∀ e, cacheGet (authGet b64d ip urlPath auth cache oracle).cache ip = some e →
      cacheGet cache ip = some e ∨
      ∃ i r r2, i ≤ 1 ∧ oracle i = .resp r ∧ r.statusCode = 401 ∧
        credOk auth = true ∧
        detectScheme b64d r = some (e.scheme, e.challenge, e.cookie) ∧
        oracle (i + 1) = .resp r2 ∧ r2.statusCode ≠ 401 ∧
        (authGet b64d ip urlPath auth cache oracle).result = .ok r2) ∧
    (∀ e, cacheGet cache ip = some e →
      cacheGet (authGet b64d ip urlPath auth cache oracle).cache ip = none →
      credOk auth = true ∧ ∃ r, oracle 0 = .resp r ∧ r.statusCode = 401) := by
  refine ⟨httpPost_cache_eq ip urlPath auth cache oracle, ?_, ?_, ?_, ?_⟩
  · intro host hne
    rcases authGet_cache_cases b64d ip urlPath auth cache oracle with hL |
      ⟨cached, r0, hcg, ha, h0, hs, hDel | ⟨sch, ch, ck, r, r2, _, _, _, _, _, hSet, _⟩⟩ |
      ⟨sch, ch, ck, r, r2, _, _, _, _, _, _, hSet, _⟩
    · rw [hL]
    · rw [hDel, cacheGet_del_other ip host hne cache]
    · rw [hSet, cacheGet_set_other ip host hne _ _, cacheGet_del_other ip host hne cache]
    · rw [hSet, cacheGet_set_other ip host hne _ _]
  · intro r h0 hs
    rcases authGet_cache_cases b64d ip urlPath auth cache oracle with hL |
      ⟨cached, r0, hcg, ha, h0', hs0, _⟩ |
      ⟨sch, ch, ck, r', r2, h0', hs0, _, _, _, _, _, _⟩
    · exact hL
    · rw [h0] at h0'
      cases h0'
      exact absurd hs0 hs
    · rw [h0] at h0'
      cases h0'
      exact absurd hs0 hs
  · intro e he
    rcases authGet_cache_cases b64d ip urlPath auth cache oracle with hL |
      ⟨cached, r0, hcg, ha, h0, hs, hDel | ⟨sch, ch, ck, r, r2, h1, hs1, hdet, h2, hs2, hSet, hres⟩⟩ |
      ⟨sch, ch, ck, r, r2, h0, hs0, ha, hdet, h1, hs1, hSet, hres⟩
    · left
      rw [hL] at he
      exact he
    · rw [hDel, cacheGet_del_self ip cache] at he
      exact absurd he (by simp)
    · right
      rw [hSet, cacheGet_set_self ip _ _] at he
      cases he
      exact ⟨1, r, r2, le_refl 1, h1, hs1, ha, hdet, h2, hs2, hres⟩
    · right
      rw [hSet, cacheGet_set_self ip _ _] at he
      cases he
      exact ⟨0, r, r2, Nat.zero_le 1, h0, hs0, ha, hdet, h1, hs1, hres⟩
  · intro e he hgone
    rcases authGet_cache_cases b64d ip urlPath auth cache oracle with hL |
      ⟨cached, r0, hcg, ha, h0, hs, _⟩ |
      ⟨sch, ch, ck, r, r2, h0, hs0, ha, hdet, h1, hs1, hSet, hres⟩
    · rw [hL, he] at hgone
      exact absurd hgone (by simp)
    · exact ⟨ha, r0, h0, hs⟩
    · rw [hSet, cacheGet_set_self ip _ _] at hgone
      exact absurd hgone (by simp)

/-! ## Hex-encoding lemmas for `zoomTo` -/

theorem hexDigitChar_facts :
    ∀ m : Nat, m < 16 →
      hexVal (hexDigitChar m) = m ∧ isLowerHexDigit (hexDigitChar m) = true := by
  decide

theorem toHexGo_all_hex :
    ∀ fuel n : Nat, n < fuel → ∀ c ∈ toHexGo fuel n, isLowerHexDigit c = true := by
  intro fuel
  induction fuel with
  | zero => intro n hn; omega
  | succ fuel ih =>
    intro n hn c hc
    rw [toHexGo] at hc
    by_cases h16 : n < 16
    · rw [if_pos h16] at hc
      rcases List.mem_singleton.mp hc with rfl
      exact (hexDigitChar_facts n h16).2
    · rw [if_neg h16] at hc
      rcases List.mem_append.mp hc with hc1 | hc2
      · exact ih (n / 16) (by omega) c hc1
      · rcases List.mem_singleton.mp hc2 with rfl
        exact (hexDigitChar_facts (n % 16) (Nat.mod_lt n (by omega))).2

theorem hexfold_replicate_zero (k : Nat) :
    List.foldl (fun a c => 16 * a + hexVal c) 0 (List.replicate k '0') = 0 := by
  induction k with
  | zero => rfl
  | succ k ih =>
    rw [List.replicate_succ, List.foldl_cons]
    simpa using ih

theorem toHexGo_decode :
    ∀ fuel n : Nat, n < fuel → hexDecodeL (toHexGo fuel n) = n := by
  intro fuel
  induction fuel with
  | zero => intro n hn; omega
  | succ fuel ih =>
    intro n hn
    rw [toHexGo]
    by_cases h16 : n < 16
    · rw [if_pos h16]
      unfold hexDecodeL
      rw [List.foldl_cons, List.foldl_nil]
      have := (hexDigitChar_facts n h16).1
      omega
    · rw [if_neg h16]
      unfold hexDecodeL
      rw [List.foldl_append]
      have hdiv := ih (n / 16) (by omega)
      unfold hexDecodeL at hdiv
      rw [hdiv, List.foldl_cons, List.foldl_nil]
      have := (hexDigitChar_facts (n % 16) (Nat.mod_lt n (by omega))).1
      omega

theorem toHexGo_length_le :
    ∀ fuel k n : Nat, n < fuel → 0 < k → n < 16 ^ k →
      (toHexGo fuel n).length ≤ k := by
  intro fuel
  induction fuel with
  | zero => intro k n hn; omega
  | succ fuel ih =>
    intro k n hn hk hpow
    rw [toHexGo]
    by_cases h16 : n < 16
    · rw [if_pos h16]
      simpa using hk
    · rw [if_neg h16]
      have hk2 : 2 ≤ k := by
        by_contra hlt
        have hk1 : k = 1 := by omega
        rw [hk1] at hpow
        simp at hpow
        omega
      have hdivpow : n / 16 < 16 ^ (k - 1) := by
        rw [Nat.div_lt_iff_lt_mul (by omega : 0 < 16)]
        calc n < 16 ^ k := hpow
          _ = 16 ^ (k - 1) * 16 := by
            rw [← Nat.pow_succ]
            congr 1
            omega
      have := ih (k - 1) (n / 16) (by omega) (by omega) hdivpow
      rw [List.length_append, List.length_singleton]
      omega

/-- C6.  `zoomTo` clamps the numeric position to [0, 16384] (an in-range
position is preserved) and encodes the clamped value as exactly four
lowercase hexadecimal digits in the CGI path; -5 encodes as `0000` and
99999 as `4000`. -/
theorem cameraZoomTo_clamps_encodes (p : Int) (speed : String) :
    (zoomToPosHex p).length = 4 ∧
    (∀ c ∈ (zoomToPosHex p).toList, isLowerHexDigit c = true) ∧
    hexDecode (zoomToPosHex p) = clampZoom p ∧
    clampZoom p ≤ 16384 ∧
    (0 ≤ p → p ≤ 16384 → (clampZoom p : Int) = p) ∧
    zoomToPath p speed =
      "/cgi-bin/ptzctrl.cgi?ptzcmd&zoomto&" ++ speed ++ "&" ++ zoomToPosHex p ∧
    zoomToPosHex (-5) = "0000" ∧ zoomToPosHex 99999 = "4000" := by
  have hcl : clampZoom p ≤ 16384 := by
    unfold clampZoom
    omega
  have hfuel : clampZoom p < clampZoom p + 1 := Nat.lt_succ_self _
  have hpow : clampZoom p < 16 ^ 4 := by
    have : (16 : Nat) ^ 4 = 65536 := by norm_num
    omega
  have hlen : (toHexGo (clampZoom p + 1) (clampZoom p)).length ≤ 4 :=
    toHexGo_length_le (clampZoom p + 1) 4 (clampZoom p) hfuel (by omega) hpow
  refine ⟨?_, ?_, ?_, hcl, ?_, rfl, by decide, by decide⟩
  · show (padStart 4 '0' (toHexList (clampZoom p))).length = 4
    unfold padStart toHexList
    rw [List.length_append, List.length_replicate]
    omega
  · intro c hc
    have hc' : c ∈ padStart 4 '0' (toHexList (clampZoom p)) := hc
    unfold padStart toHexList at hc'
    rcases List.mem_append.mp hc' with hrep | hgo
    · rcases List.eq_of_mem_replicate hrep with rfl
      decide
    · exact toHexGo_all_hex (clampZoom p + 1) (clampZoom p) hfuel c hgo
  · show hexDecodeL (padStart 4 '0' (toHexList (clampZoom p))) = clampZoom p
    unfold padStart toHexList hexDecodeL
    rw [List.foldl_append, hexfold_replicate_zero]
    exact toHexGo_decode (clampZoom p + 1) (clampZoom p) hfuel
  · intro hlo hhi
    unfold clampZoom
    omega

/-- C6 witness: position 3 is in range and preserved by the clamp. -/
theorem cameraZoomTo_clamps_encodes_witness :
    (0 : Int) ≤ 3 ∧ (3 : Int) ≤ 16384 ∧ (clampZoom 3 : Int) = 3 :=
  ⟨by decide, by decide,
    (cameraZoomTo_clamps_encodes 3 "7").2.2.2.2.1 (by decide) (by decide)⟩

/-- C3.  The vendor Authn builder computes
response = SHA-256(HA1 : nonce : cnonce : HA2) with
HA1 = SHA-256(username : realm : password) — realm defaulting to the empty
string when the challenge carries none — and HA2 = SHA-256("GET:" ++ uri).
The builder takes no request method at all (`buildRetryHeaders` calls it
identically on the GET and POST paths), so HA2 uses `GET:` regardless of
the actual request method. -/
theorem buildAuthn_response_formula (sha256 : String → String)
    (cnonce uri username password : String) (challenge : AuthParams) :
    (buildAuthnAuth sha256 cnonce uri username password challenge).headerValue =
      renderHeaderValue "Authn"
        (authnFields sha256 cnonce uri username password challenge) ∧
    getParam (authnFields sha256 cnonce uri username password challenge) "response" =
      some (quoteStr (sha256
        (sha256 (username ++ ":" ++ (getParam challenge "realm").getD "" ++ ":" ++ password)
          ++ ":" ++ jsStr (getParam challenge "nonce") ++ ":" ++ cnonce ++ ":"
          ++ sha256 ("GET:" ++ uri)))) := by
  exact ⟨rfl, rfl⟩

/-- C7 counterexample: the challenge `qop=","` carries a nonempty (truthy)
`qop` parameter, yet the derived qop (`split(',')[0].trim()`, line 82) is
the falsy empty string, so `buildDigestAuth` emits no `qop`/`nc`/`cnonce`
fields and uses the no-qop response form — refuting the claim's
"if and only if the challenge carries a qop parameter". -/
theorem digest_qop_emission_counterexample :
    getParam [("qop", ",")] "qop" = some "," ∧
    jsTruthyStr (getParam [("qop", ",")] "qop") = true ∧
    "qop" ∉ (digestFields md5Model sha256Model "cn" "GET" "/" "u" "p"
      [("qop", ",")]).map Prod.fst ∧
    "nc" ∉ (digestFields md5Model sha256Model "cn" "GET" "/" "u" "p"
      [("qop", ",")]).map Prod.fst ∧
    "cnonce" ∉ (digestFields md5Model sha256Model "cn" "GET" "/" "u" "p"
      [("qop", ",")]).map Prod.fst ∧
    digestResponse md5Model sha256Model "cn" "GET" "/" "u" "p" [("qop", ",")] =
      md5Model (md5Model "u:undefined:p" ++ ":undefined:" ++ md5Model "GET:/") := by
  decide

/-- C7 amended.  The `Digest` header contains the `qop`, `nc` and `cnonce`
fields exactly when the qop value derived at line 82 — the first
comma-separated token of the challenge's qop parameter, trimmed — is
nonempty (truthy), and the `opaque` field exactly when the challenge
supplied a truthy (nonempty) `opaque` value. -/
theorem digest_qop_opaque_emission_amended (md5 sha256 : String → String)
    (cnonce method uri username password : String) (challenge : AuthParams) :
    (("qop" ∈ (digestFields md5 sha256 cnonce method uri username password challenge).map
        Prod.fst ∧
      "nc" ∈ (digestFields md5 sha256 cnonce method uri username password challenge).map
        Prod.fst ∧
      "cnonce" ∈ (digestFields md5 sha256 cnonce method uri username password challenge).map
        Prod.fst) ↔
      digestQopTruthy challenge = true) ∧
    (("opaque" ∈ (digestFields md5 sha256 cnonce method uri username password challenge).map
        Prod.fst) ↔
      jsTruthyStr (getParam challenge "opaque") = true) ∧
    (buildDigestAuth md5 sha256 cnonce method uri username password challenge).headerValue =
      renderHeaderValue "Digest"
        (digestFields md5 sha256 cnonce method uri username password challenge) := by
  refine ⟨?_, ?_, rfl⟩
  · rcases hq : getParam challenge "qop" with _ | s
    · by_cases ho : jsTruthyStr (getParam challenge "opaque") = true <;>
        simp [digestFields, digestQop, digestQopTruthy, hq, jsTruthyStr, ho]
    · by_cases hs : s = ""
      · by_cases ho : jsTruthyStr (getParam challenge "opaque") = true <;>
          simp [digestFields, digestQop, digestQopTruthy, hq, hs, jsTruthyStr, ho]
      · by_cases hq2 : jsTrim ((jsSplitChar ',' s).headD "") = ""
        · by_cases ho : jsTruthyStr (getParam challenge "opaque") = true <;>
            simp [digestFields, digestQop, digestQopTruthy, hq, hs, hq2, jsTruthyStr, ho]
        · by_cases ho : jsTruthyStr (getParam challenge "opaque") = true <;>
            simp [digestFields, digestQop, digestQopTruthy, hq, hs, hq2, jsTruthyStr, ho]
  · rcases hq : getParam challenge "qop" with _ | s
    · by_cases ho : jsTruthyStr (getParam challenge "opaque") = true <;>
        simp [digestFields, digestQop, digestQopTruthy, hq, jsTruthyStr, ho]
    · by_cases hs : s = ""
      · by_cases ho : jsTruthyStr (getParam challenge "opaque") = true <;>
          simp [digestFields, digestQop, digestQopTruthy, hq, hs, jsTruthyStr, ho]
      · by_cases hq2 : jsTrim ((jsSplitChar ',' s).headD "") = ""
        · by_cases ho : jsTruthyStr (getParam challenge "opaque") = true <;>
            simp [digestFields, digestQop, digestQopTruthy, hq, hs, hq2, jsTruthyStr, ho]
        · by_cases ho : jsTruthyStr (getParam challenge "opaque") = true <;>
            simp [digestFields, digestQop, digestQopTruthy, hq, hs, hq2, jsTruthyStr, ho]

/-- C8 counterexample: the RFC 7616 algorithm `SHA-512-256-sess`
(uppercased: ends in `-SESS`) is *not* re-hashed by `buildDigestAuth` —
the code compares the whole algorithm against `MD5-SESS` / `SHA-256-SESS`
rather than checking the `-SESS` suffix, so the claim's "ends in -SESS"
condition is refuted at this input. -/
theorem digest_sess_counterexample :
    strEndsWith (digestAlgo [("algorithm", "SHA-512-256-sess"), ("realm", "r"), ("nonce", "n")])
        "-SESS" = true ∧
    digestHA1 md5Model sha256Model "cn" "u" "p"
        [("algorithm", "SHA-512-256-sess"), ("realm", "r"), ("nonce", "n")] =
      md5Model "u:r:p" ∧
    digestHA1 md5Model sha256Model "cn" "u" "p"
        [("algorithm", "SHA-512-256-sess"), ("realm", "r"), ("nonce", "n")] ≠
      md5Model (md5Model "u:r:p" ++ ":n:cn") := by
  decide

/-- C8 amended: HA1 is re-hashed with `nonce:cnonce` exactly when the
uppercased algorithm *equals* `MD5-SESS` or `SHA-256-SESS`; the hash
function is SHA-256 exactly when the uppercased algorithm starts with
`SHA-256`, and MD5 otherwise (both checks case-insensitive via the
uppercasing). -/
theorem digest_sess_amended (md5 sha256 : String → String)
    (cnonce username password : String) (challenge : AuthParams) :
    (digestHA1 md5 sha256 cnonce username password challenge =
      (if digestAlgo challenge = "MD5-SESS" ∨ digestAlgo challenge = "SHA-256-SESS" then
        digestHash md5 sha256 challenge
          (digestHash md5 sha256 challenge
            (username ++ ":" ++ jsStr (getParam challenge "realm") ++ ":" ++ password)
            ++ ":" ++ jsStr (getParam challenge "nonce") ++ ":" ++ cnonce)
       else
        digestHash md5 sha256 challenge
          (username ++ ":" ++ jsStr (getParam challenge "realm") ++ ":" ++ password))) ∧
    (strStartsWith (digestAlgo challenge) "SHA-256" = true →
      digestHash md5 sha256 challenge = sha256) ∧
    (strStartsWith (digestAlgo challenge) "SHA-256" = false →
      digestHash md5 sha256 challenge = md5) := by
  refine ⟨rfl, ?_, ?_⟩
  · intro h
    unfold digestHash
    rw [if_pos h]
  · intro h
    unfold digestHash
    rw [if_neg (by simp [h])]

/-- C8 witness: a lowercase `sha-256` algorithm selects the SHA-256 hash. -/
theorem digest_sess_amended_witness :
    strStartsWith (digestAlgo [("algorithm", "sha-256")]) "SHA-256" = true ∧
    digestHash md5Model sha256Model [("algorithm", "sha-256")] = sha256Model :=
  ⟨by decide,
    (digest_sess_amended md5Model sha256Model "c" "u" "p" [("algorithm", "sha-256")]).2.1
      (by decide)⟩

/-- C4 counterexample: `camera:zoom` reports success even when the 200
response body is 401-shaped — only `camera:ptz` performs the body check,
so the claim fails for the other movement operations. -/
theorem movement_401_body_counterexample :
    strIncludes "401 Unauthorized" "401" = true ∧
    cameraZoom "zoomin" "3" (.ok "401 Unauthorized") = .ok none := by
  exact ⟨by decide, rfl⟩

/-- C4 amended: `camera:ptz` reports a 401-shaped 200 body as the
authentication error and never as success; the remaining movement
operations (`zoom`, `focus`, `zoomTo`, `osdNavigate`, `ptzReset`) never
inspect the body and report success for every resolved body. -/
theorem movement_401_body_policy (cmd s1 s2 dir spd fcmd ocmd : String) (p : Int)
    (body : String) :
    ((strIncludes body "401" = true ∨ strIncludes body "Unauthorized" = true) →
      cameraPtz cmd s1 s2 (.ok body) = .fail "Authentication required for PTZ control") ∧
    (¬ (strIncludes body "401" = true ∨ strIncludes body "Unauthorized" = true) →
      cameraPtz cmd s1 s2 (.ok body) = .ok none) ∧
    cameraZoom dir spd (.ok body) = .ok none ∧
    cameraFocus fcmd (.ok body) = .ok none ∧
    cameraZoomTo p spd (.ok body) = .ok none ∧
    cameraOsdNavigate ocmd (.ok body) = .ok none ∧
    cameraPtzReset (.ok body) = .ok none := by
  refine ⟨?_, ?_, rfl, rfl, rfl, rfl, rfl⟩
  · intro h
    unfold cameraPtz
    dsimp only
    rw [if_pos h]
  · intro h
    unfold cameraPtz
    dsimp only
    rw [if_neg h]

/-- C4 witness: a body `"401"` makes `camera:ptz` fail with the
authentication error. -/
theorem movement_401_body_policy_witness :
    cameraPtz "left" "5" "5" (.ok "401") = .fail "Authentication required for PTZ control" :=
  (movement_401_body_policy "left" "5" "5" "zoomin" "3" "focusin" "up" 0 "401").1
    (by decide)

/-- C5.  Snapshot classification: a body under 1000 UTF-8 bytes containing
`<!DOCTYPE` or `<html` is an error — the authentication error when it also
contains `401` or `Unauthorized`, otherwise the error-page error; any body
of at least 1000 bytes, and any shorter body that is not HTML, is returned
as base64 with success. -/
theorem cameraSnapshot_classification (body : String) (second : Except String String) :
    (body.utf8ByteSize < 1000 →
      (strIncludes body "<!DOCTYPE" = true ∨ strIncludes body "<html" = true) →
      (strIncludes body "401" = true ∨ strIncludes body "Unauthorized" = true) →
      cameraSnapshot (.ok body) second = .fail "Authentication required for snapshots") ∧
    (body.utf8ByteSize < 1000 →
      (strIncludes body "<!DOCTYPE" = true ∨ strIncludes body "<html" = true) →
      ¬ (strIncludes body "401" = true ∨ strIncludes body "Unauthorized" = true) →
      cameraSnapshot (.ok body) second =
        .fail "Camera returned error page instead of image") ∧
    (body.utf8ByteSize < 1000 →
      ¬ (strIncludes body "<!DOCTYPE" = true ∨ strIncludes body "<html" = true) →
      cameraSnapshot (.ok body) second = .ok (some (base64Encode body))) ∧
    (1000 ≤ body.utf8ByteSize →
      cameraSnapshot (.ok body) second = .ok (some (base64Encode body))) := by
  refine ⟨?_, ?_, ?_, ?_⟩
  · intro hlen hhtml hauth
    unfold cameraSnapshot classifySnapshot
    dsimp only
    rw [if_pos hlen, if_pos hhtml, if_pos hauth]
  · intro hlen hhtml hauth
    unfold cameraSnapshot classifySnapshot
    dsimp only
    rw [if_pos hlen, if_pos hhtml, if_neg hauth]
  · intro hlen hhtml
    unfold cameraSnapshot classifySnapshot
    dsimp only
    rw [if_pos hlen, if_neg hhtml]
  · intro hge
    unfold cameraSnapshot classifySnapshot
    dsimp only
    rw [if_neg (by omega : ¬ body.utf8ByteSize < 1000)]

/-- C5 witness: a small HTML body mentioning 401 is classified as the
authentication error. -/
theorem cameraSnapshot_classification_witness :
    cameraSnapshot (.ok "<html>401") (.error "x") =
      .fail "Authentication required for snapshots" :=
  (cameraSnapshot_classification "<html>401" (.error "x")).1 (by decide) (by decide)
    (by decide)

/-- C2.  `camera:connect` fails exactly when all four constituent reads
(device-info, image, exposure, focus) failed, and then carries the first
encountered error (the device-config one, which is always pushed first);
if at least one read succeeded it returns success with the config merged
from whichever group reads responded, device-info fields defaulting when
the device read failed or lacks the keys. -/
theorem cameraConnect_partial_failure (dev img expo foc : Except String String) :
    ((∃ e, cameraConnect dev img expo foc = .fail e) ↔
      ¬ dev.isOk = true ∧ ¬ img.isOk = true ∧ ¬ expo.isOk = true ∧ ¬ foc.isOk = true) ∧
    (∀ ed, dev = .error ed → ¬ img.isOk = true → ¬ expo.isOk = true → ¬ foc.isOk = true →
      cameraConnect dev img expo foc = .fail ("Device config: " ++ ed)) ∧
    ((dev.isOk = true ∨ img.isOk = true ∨ expo.isOk = true ∨ foc.isOk = true) →
      ∃ i, cameraConnect dev img expo foc =
        .ok i (mergeObj (mergeObj (parse (exceptBody img)) (parse (exceptBody expo)))
          (parse (exceptBody foc)))) ∧
    (¬ dev.isOk = true → (img.isOk = true ∨ expo.isOk = true ∨ foc.isOk = true) →
      ∃ cfg, cameraConnect dev img expo foc =
        .ok ⟨.str "PTZOptics Move SE", .str "N/A", .str "N/A"⟩ cfg) ∧
    (∀ d, dev = .ok d →
      getVal (parse d) "device_model" = none → getVal (parse d) "model" = none →
      getVal (parse d) "serial_number" = none → getVal (parse d) "sn" = none →
      getVal (parse d) "firmware_version" = none → getVal (parse d) "fw" = none →
      ∃ cfg, cameraConnect dev img expo foc =
        .ok ⟨.str "PTZOptics Move SE", .str "N/A", .str "N/A"⟩ cfg) := by
  refine ⟨?_, ?_, ?_, ?_, ?_⟩
  · by_cases hAny : dev.isOk = true ∨ img.isOk = true ∨ expo.isOk = true ∨ foc.isOk = true
    · constructor
      · intro ⟨e, he⟩
        unfold cameraConnect at he
        rw [if_pos hAny] at he
        simp at he
      · intro ⟨h1, h2, h3, h4⟩
        exact absurd hAny (by simp [h1, h2, h3, h4])
    · push_neg at hAny
      constructor
      · intro _
        exact ⟨hAny.1, hAny.2.1, hAny.2.2.1, hAny.2.2.2⟩
      · intro _
        unfold cameraConnect
        rw [if_neg (by push_neg; exact hAny)]
        exact ⟨_, rfl⟩
  · intro ed hdev h2 h3 h4
    subst hdev
    unfold cameraConnect
    rw [if_neg (by simp_all [Except.isOk, Except.toBool])]
    rcases img with ei | i
    all_goals rcases expo with ex | x
    all_goals rcases foc with ef | f
    all_goals simp_all [errTag, Except.isOk, Except.toBool]
  · intro hAny
    unfold cameraConnect
    rw [if_pos hAny]
    exact ⟨_, rfl⟩
  · intro hdev hAny
    unfold cameraConnect
    rw [if_pos (Or.inr hAny)]
    rcases dev with ed | d
    · exact ⟨_, rfl⟩
    · simp [Except.isOk, Except.toBool] at hdev
  · intro d hdev h1 h2 h3 h4 h5 h6
    subst hdev
    unfold cameraConnect
    rw [if_pos (Or.inl (by rfl))]
    refine ⟨mergeObj (mergeObj (parse (exceptBody img)) (parse (exceptBody expo)))
      (parse (exceptBody foc)), ?_⟩
    dsimp only
    simp only [h1, h2, h3, h4, h5, h6, jsOrVal, jsOrValD]

/-- C2 witness: all four reads failing yields the device-config error. -/
theorem cameraConnect_partial_failure_witness :
    cameraConnect (.error "boom") (.error "a") (.error "b") (.error "c") =
      .fail "Device config: boom" :=
  (cameraConnect_partial_failure (.error "boom") (.error "a") (.error "b")
      (.error "c")).2.1 "boom" rfl (by decide) (by decide) (by decide)

/-- C9 (code bug).  `camera:discover` never clears its 3-second timer, so a
socket error inside the window closes the socket in the error handler and
then the timer callback closes it a second time — two `close()` calls,
although the error-free executions close exactly once (and deduplicate
reply addresses). -/
theorem discover_close_count :
    (runDiscover [.sockError]).closeCalls = 2 ∧
    (runDiscover []).closeCalls = 1 ∧
    (runDiscover [.msg "10.0.0.7", .msg "10.0.0.7", .msg "10.0.0.8"]).closeCalls = 1 ∧
    (runDiscover [.msg "10.0.0.7", .msg "10.0.0.7", .msg "10.0.0.8"]).result =
      ["10.0.0.7", "10.0.0.8"] := by
  decide

/-- C1 witness: a concrete stale-cache run whose retry is rejected ends in
the credentials error with the host's cache entry gone. -/
theorem authGet_stale_cache_renegotiation_witness :
    (authGet b64dModel "10.0.0.9" "/cgi-bin/param.cgi?get_image_conf"
      (some ⟨"admin", "pw"⟩) cacheStale oracleStale).result =
        .error "401 Unauthorized - check credentials" ∧
    cacheGet (authGet b64dModel "10.0.0.9" "/cgi-bin/param.cgi?get_image_conf"
      (some ⟨"admin", "pw"⟩) cacheStale oracleStale).cache "10.0.0.9" = none :=
  (authGet_stale_cache_renegotiation b64dModel "10.0.0.9"
      "/cgi-bin/param.cgi?get_image_conf" (some ⟨"admin", "pw"⟩) cacheStale oracleStale
      ⟨.digest, [("realm", "old")], none⟩ ⟨401, "", [], ""⟩
      ⟨401, "Digest realm=\"x\", nonce=\"y\"", [], ""⟩ .digest
      (parseAuthParams "Digest realm=\"x\", nonce=\"y\"") none
      (by decide) (by decide) rfl (by decide) rfl (by decide) (by decide)).2.1
    ⟨401, "", [], ""⟩ rfl (by decide)

/-- C10 witness: a GET answered 200 on the first request leaves an empty
cache empty. -/
theorem authCache_write_policy_witness :
    (authGet b64dModel "10.0.0.9" "/p" none [] oraclePass).cache = [] :=
  (authCache_write_policy b64dModel "10.0.0.9" "/p" none [] oraclePass).2.2.1
    ⟨200, "", [], "ok"⟩ rfl (by decide)

end Pitized
